import Mathlib

/-!
Shallow embedding of the status-composer script `src/app/assets/v2/js/status.js`.

The script wires a status-update text box: it classifies the text on every
input event (GIF lock / YouTube URL / generic URL / none), resolves preview
metadata, maintains an "@"-mention dropdown, persists a per-page draft, and
serializes the composed payload on submit.

The three regular expressions at the top of the source are modelled as
executable matchers over `List Char` with JavaScript `String.prototype.match`
semantics for these concrete patterns: leftmost starting position wins,
alternatives are tried left to right, quantifiers are greedy with
backtracking, and `match[0]` / `match[1]` are the full matched text and the
first capture group.
-/

/-- Drop a literal from the front of the input, returning the remainder,
or fail. -/
def dropLit : List Char → List Char → Option (List Char)
  | [], l => some l
  | _ :: _, [] => none
  | a :: as, b :: bs => if a = b then dropLit as bs else none

/-- Does the needle occur as a contiguous substring of the haystack? -/
def containsSub : List Char → List Char → Bool
  | needle, [] => needle.isEmpty
  | needle, c :: t => needle.isPrefixOf (c :: t) || containsSub needle t

/-- Model of `giphy_re = /(?:https?:\/\/)?(?:media0\.)?(?:giphy\.com\/media\/)/`
tested with `.match(...) !== null`.  Every component except the literal
`giphy.com/media/` is optional, so the unanchored pattern matches exactly
when that literal occurs somewhere in the string. -/
def giphy_re_match (s : String) : Bool :=
  containsSub "giphy.com/media/".data s.data

/-- JavaScript `[\w-]`: ASCII alphanumeric, underscore or hyphen. -/
def isWordDash (c : Char) : Bool := c.isAlphanum || c == '_' || c == '-'

/-- Take exactly `n` `[\w-]` characters from the input. -/
def grabIdChars : Nat → List Char → Option (List Char × List Char)
  | 0, rest => some ([], rest)
  | _ + 1, [] => none
  | n + 1, c :: t =>
    if isWordDash c then (grabIdChars n t).map (fun p => (c :: p.1, p.2)) else none

/-- Tail of `youtube_re`: the capture `([\w-]{11})` followed by the negative
lookahead `(?![\w-])`.  Returns (consumed text, capture). -/
def ytIdTail (l : List Char) : Option (List Char × List Char) :=
  match grabIdChars 11 l with
  | none => none
  | some (cap, rest) =>
    match rest with
    | [] => some (cap, cap)
    | c :: _ => if isWordDash c then none else some (cap, cap)

/-- Require a literal, then run the continuation on the remainder; the
consumed text of the continuation is prefixed with the literal. -/
def withLit (lit : String) (l : List Char)
    (k : List Char → Option (List Char × List Char)) :
    Option (List Char × List Char) :=
  match dropLit lit.data l with
  | none => none
  | some r => (k r).map (fun p => (lit.data ++ p.1, p.2))

/-- JavaScript `.` without the `s` flag: any char except a line terminator. -/
def isDotChar (c : Char) : Bool := c != '\n' && c != '\r'

/-- The `&v=` literal followed by the id capture and lookahead. -/
def ytAmp (l : List Char) : Option (List Char × List Char) :=
  match dropLit "&v=".data l with
  | none => none
  | some r => (ytIdTail r).map (fun p => ("&v=".data ++ p.1, p.2))

/-- Greedy `.*` before `&v=`: prefer consuming one more character over
stopping, i.e. the longest viable consumption wins. -/
def ytDotStar : List Char → Option (List Char × List Char)
  | [] => ytAmp []
  | c :: t =>
    (if isDotChar c then (ytDotStar t).map (fun p => (c :: p.1, p.2)) else none)
    <|> ytAmp (c :: t)

/-- Greedy `.+` before `&v=`: at least one character, longest first. -/
def ytDotPlus : List Char → Option (List Char × List Char)
  | [] => none
  | c :: t =>
    if isDotChar c then (ytDotStar t).map (fun p => (c :: p.1, p.2)) else none

/-- The alternation after `youtube.com/`:
`embed\/|v\/|watch\?v=|watch\?.+&v=`, in source order. -/
def ytPath (l : List Char) : Option (List Char × List Char) :=
  withLit "embed/" l ytIdTail <|> withLit "v/" l ytIdTail <|>
  withLit "watch?v=" l ytIdTail <|> withLit "watch?" l ytDotPlus

/-- The host alternation `youtu\.be\/|youtube\.com\/(...)`. -/
def ytHost (l : List Char) : Option (List Char × List Char) :=
  withLit "youtu.be/" l ytIdTail <|> withLit "youtube.com/" l ytPath

/-- The optional subdomain `(?:www\.|m\.)?`, greedy. -/
def ytSub (l : List Char) : Option (List Char × List Char) :=
  withLit "www." l ytHost <|> withLit "m." l ytHost <|> ytHost l

/-- The optional scheme `(?:https?:\/\/|\/\/)?`, greedy, `s?` greedy. -/
def ytAt (l : List Char) : Option (List Char × List Char) :=
  withLit "https://" l ytSub <|> withLit "http://" l ytSub <|>
  withLit "//" l ytSub <|> ytSub l

/-- Scan for the leftmost starting position with a match. -/
def ytScan : List Char → Option (List Char × List Char)
  | [] => none
  | c :: t => ytAt (c :: t) <|> ytScan t

/-- Model of `text.match(youtube_re)`:
`/(?:https?:\/\/|\/\/)?(?:www\.|m\.)?(?:youtu\.be\/|youtube\.com\/(?:embed\/|v\/|watch\?v=|watch\?.+&v=))([\w-]{11})(?![\w-])/`.
Returns `(match[0], match[1])`, i.e. (full matched text, captured video id),
or `none` when the text has no match. -/
def youtube_re_match (s : String) : Option (String × String) :=
  (ytScan s.data).map (fun p => (String.mk p.1, String.mk p.2))

/-- The host character class `[-a-zA-Z0-9@:%._\+~#=]` of `url_re`. -/
def isUrlHostChar (c : Char) : Bool := c.isAlphanum || "-@:%._+~#=".data.contains c

/-- The tail character class `[-a-zA-Z0-9@:%_\+.~#?&//=]` of `url_re`
(a doubled `/` inside a class is just `/`). -/
def isUrlTailChar (c : Char) : Bool := c.isAlphanum || "-@:%_+.~#?&/=".data.contains c

/-- JavaScript `\w`: ASCII alphanumeric or underscore (used for `\b`). -/
def isWordChar (c : Char) : Bool := c.isAlphanum || c == '_'

/-- Greedy bounded repetition `p{lo,hi}` with backtracking into the
continuation `k`; the continuation is attempted only once at least `lo`
characters have been consumed, and longer consumptions are preferred. -/
def repG (p : Char → Bool) : Nat → Nat → List Char → (List Char → Option (List Char)) →
    Option (List Char)
  | lo, hi + 1, c :: t, k =>
    (if p c then (repG p (lo - 1) hi t k).map (fun r => c :: r) else none)
    <|> (if lo = 0 then k (c :: t) else none)
  | lo, _, l, k => if lo = 0 then k l else none

/-- After the TLD letters of `url_re`: the word boundary `\b` (the previous
character is a lowercase letter, hence a word character, so the boundary
holds exactly when the next character is absent or not a word character),
then the greedy unbounded tail class, which has nothing after it and so
simply consumes the longest run. -/
def urlBoundaryTail (l : List Char) : Option (List Char) :=
  match l with
  | [] => some []
  | c :: t => if isWordChar c then none else some ((c :: t).takeWhile isUrlTailChar)

/-- The `\.[a-z]{2,10}\b(...)` tail of `url_re`. -/
def urlTldTail (l : List Char) : Option (List Char) :=
  match l with
  | '.' :: t => (repG Char.isLower 2 10 t urlBoundaryTail).map (fun r => '.' :: r)
  | _ => none

/-- The `[-a-zA-Z0-9@:%._\+~#=]{2,256}` host part of `url_re`. -/
def urlHostTail (l : List Char) : Option (List Char) :=
  repG isUrlHostChar 2 256 l urlTldTail

/-- The optional `(www\.)?` group, greedy. -/
def urlAfterProto (l : List Char) : Option (List Char) :=
  (match dropLit "www.".data l with
   | some r => (urlHostTail r).map (fun x => "www.".data ++ x)
   | none => none)
  <|> urlHostTail l

/-- The scheme `https?:\/\/`, `s?` greedy. -/
def urlAt (l : List Char) : Option (List Char) :=
  (match dropLit "https://".data l with
   | some r => (urlAfterProto r).map (fun x => "https://".data ++ x)
   | none => none)
  <|> (match dropLit "http://".data l with
       | some r => (urlAfterProto r).map (fun x => "http://".data ++ x)
       | none => none)

/-- Scan for the leftmost starting position with a `url_re` match. -/
def urlScan : List Char → Option (List Char)
  | [] => none
  | c :: t => urlAt (c :: t) <|> urlScan t

/-- Model of `text.match(url_re)`:
`/https?:\/\/(www\.)?[-a-zA-Z0-9@:%._\+~#=]{2,256}\.[a-z]{2,10}\b([-a-zA-Z0-9@:%_\+.~#?&//=]*)/`.
Returns `match[0]` (the only part the script uses; the match array of a
successful match always has length 3 here, so the script's
`site.length > 1` test is true whenever the match is non-null). -/
def url_re_match (s : String) : Option String :=
  (urlScan s.data).map String.mk

/-- Split a character list at every occurrence of the separator, keeping
empty pieces, exactly like JavaScript `split` with a one-character
separator. -/
def splitOnChar (sep : Char) : List Char → List (List Char)
  | [] => [[]]
  | c :: t =>
    if c = sep then [] :: splitOnChar sep t
    else
      match splitOnChar sep t with
      | [] => [[c]]
      | h :: rt => (c :: h) :: rt

/-- Split a character list at every character satisfying the predicate,
keeping empty pieces. -/
def splitOnPred (p : Char → Bool) : List Char → List (List Char)
  | [] => [[]]
  | c :: t =>
    if p c then [] :: splitOnPred p t
    else
      match splitOnPred p t with
      | [] => [[c]]
      | h :: rt => (c :: h) :: rt

/-- JavaScript `value.split(' ').pop()`: the last element of the split on
the space character, i.e. the text after the final space. -/
def lastWordOf (v : String) : String :=
  String.mk ((splitOnChar ' ' v.data).getLastD [])

/-- JavaScript `String.prototype.trim`: strip whitespace from both ends. -/
def jsTrim (s : String) : String :=
  String.mk (((s.data.dropWhile Char.isWhitespace).reverse.dropWhile Char.isWhitespace).reverse)

/-- JavaScript `s.startsWith(pre)`. -/
def strStartsWith (s pre : String) : Bool :=
  pre.data.isPrefixOf s.data

/-- JavaScript `s.slice(1)`: everything after the first character. -/
def strSlice1 (s : String) : String :=
  String.mk (s.data.drop 1)

/-- The values of the poll inputs `option1` .. `option4` rendered when the
poll button is toggled on (the markup defines exactly these four inputs). -/
structure PollInputs where
  option1 : String
  option2 : String
  option3 : String
  option4 : String
deriving DecidableEq, Repr

/-- A link-metadata response from `service/metadata/?url=...`.  Absent JSON
fields are modelled as the empty string, which is falsy exactly like the
absent field in the script's truthiness tests. -/
structure LinkMeta where
  title : String
  description : String
  image : String
  link : String
deriving DecidableEq, Repr

/-- A network request issued by a handler. -/
inductive FetchRequest where
  | videoMeta (videoId : String)
  | linkMeta (url : String)
  | userSearch (term : String)
  | postActivity (formData : List (String × String))
deriving DecidableEq, Repr

/-- A user-visible side effect. -/
inductive UiEffect where
  | alert (message level : String)
  | runLongPoller (flag : Bool)
deriving DecidableEq, Repr

/-- Outcome of the submission POST: an HTTP status, or a network error
caught by the `.catch` handler. -/
inductive SubmitResponse where
  | status (code : Nat)
  | networkError
deriving DecidableEq, Repr

/-- The document state touched by the script: the shared mutable
`embedded_resource`, the textarea, the per-page localStorage draft entry,
the link/video thumbnail panel, the GIF preview panel, the mention
dropdown, the post button, the poll and video-decoration containers, the
ambient form fields read on submit, and the activity feed hooks. -/
structure ComposerState where
  embedded_resource : String
  textboxVal : String
  draft : Option String
  thumbnailTitle : String
  thumbnailProvider : String
  thumbnailDesc : String
  thumbnailImg : String
  thumbnailImgPadded : Bool
  thumbnailImgWidth : String
  thumbnailShown : Bool
  previewImg : String
  previewShown : Bool
  dropdownShown : Bool
  dropdownHandles : List String
  dropdownEmptyMsg : Option String
  btnPostDisabled : Bool
  textareaRed : Bool
  charCountText : String
  charCountHidden : Bool
  maxLen : Nat
  askVal : String
  whatVal : String
  tabParam : String
  csrfToken : String
  pollContainer : Option PollInputs
  videoContainer : Option String
  hasActivityFeed : Bool
  feedPageAttr : Nat
  feedHtml : String
deriving DecidableEq, Repr

/-- `selectGif`: clicking a GIF search result stores its `data-src` in
`embedded_resource`, shows the GIF preview and hides the thumbnail panel. -/
def selectGif (s : ComposerState) (src : String) : ComposerState :=
  { s with embedded_resource := src, previewImg := src,
           previewShown := true, thumbnailShown := false }

/-- The `none` classification arm of the input handler: always clears the
thumbnail description; additionally, when the edit is not a line break,
clears `embedded_resource` and hides the thumbnail panel. -/
def noneUpdate (s : ComposerState) (ty : String) : ComposerState × List FetchRequest :=
  if ty ≠ "insertLineBreak" then
    ({ s with thumbnailDesc := "", embedded_resource := "", thumbnailShown := false }, [])
  else ({ s with thumbnailDesc := "" }, [])

/-- The generic-URL arm: `site && site.length > 1 && no_lb` issues a
metadata fetch for `site[0]` unconditionally (no equality guard against the
current `embedded_resource`); otherwise the `none` arm runs. -/
def siteUpdate (s : ComposerState) (value ty : String) : ComposerState × List FetchRequest :=
  match url_re_match value with
  | some url =>
    if ty ≠ "insertLineBreak" then (s, [FetchRequest.linkMeta url]) else noneUpdate s ty
  | none => noneUpdate s ty

/-- The classification cascade of the `input` handler, after the GIF-lock
early return: the YouTube arm wins when the text matches `youtube_re` with
an 11-character capture and the edit is not a line break; its fetch is
issued only when `embedded_resource !== youtube[0]`.  Otherwise the
generic-URL arm, otherwise the `none` arm. -/
def classifyUpdate (s : ComposerState) (value ty : String) :
    ComposerState × List FetchRequest :=
  match youtube_re_match value with
  | some (full, vid) =>
    if vid.length = 11 ∧ ty ≠ "insertLineBreak" then
      if s.embedded_resource = full then (s, []) else (s, [FetchRequest.videoMeta vid])
    else siteUpdate s value ty
  | none => siteUpdate s value ty

/-- The user-search lookups triggered by the mention inspection:
`lastWord = value.split(' ').pop()` (split on the space character), and a
lookup is issued when it starts with `@` and more than 2 characters follow
the `@`. -/
def mentionRequests (value : String) : List FetchRequest :=
  let lastWord := lastWordOf value
  if strStartsWith lastWord "@" then
    if 2 < (strSlice1 lastWord).length then
      [FetchRequest.userSearch (strSlice1 lastWord)]
    else []
  else []

/-- The synchronous dropdown effect of the mention inspection: when the
last space-delimited word starts with `@` the handler returns early and the
dropdown is left as is; otherwise the dropdown is hidden. -/
def mentionUpdate (s : ComposerState) (value : String) : ComposerState :=
  if strStartsWith (lastWordOf value) "@" then s
  else { s with dropdownShown := false }

/-- The `$('#textarea').on('input', ...)` handler.  `value` is
`e.target.value` (the DOM value the browser already updated) and `ty` is
`e.originalEvent.inputType`.  When `embedded_resource` matches `giphy_re`
the handler returns immediately: no classification, no fetch, no mention
inspection.  Returns the updated state and the fetches issued. -/
def inputHandler (s : ComposerState) (value ty : String) :
    ComposerState × List FetchRequest :=
  if giphy_re_match s.embedded_resource then (s, [])
  else
    let c := classifyUpdate s value ty
    (mentionUpdate c.1 value, c.2 ++ mentionRequests value)

/-- The `$.when(getVideoData).then(...)` callback: `titles` is the list of
`items[i].snippet.title` of the response.  A non-empty result populates the
thumbnail panel (provider fixed to `Youtube`, image derived from the video
id) and sets `embedded_resource` to the full matched URL; an empty result
hides the panel and clears `embedded_resource`. -/
def youtubeResolve (s : ComposerState) (videoId fullMatch : String)
    (titles : List String) : ComposerState :=
  match titles with
  | t :: _ =>
    { s with thumbnailTitle := t, thumbnailProvider := "Youtube",
             thumbnailImg := "https://img.youtube.com/vi/" ++ videoId ++ "/default.jpg",
             embedded_resource := fullMatch, thumbnailShown := true, previewShown := false }
  | [] => { s with thumbnailShown := false, thumbnailDesc := "", embedded_resource := "" }

/-- The description shown in the thumbnail panel: a truthy description
longer than 200 characters is cut to `substr(0, 200)` plus `'...'`. -/
def displayedDescription (d : String) : String :=
  if d ≠ "" ∧ 200 < d.length then d.take 200 ++ "..." else d

/-- The `$.when(getMetadata).then(...)` callback of the generic-URL arm:
a truthy response populates the panel (with a placeholder image and padded
styling when the response has no image) and sets `embedded_resource` to the
matched URL; a falsy response hides the panel and clears it. -/
def linkResolve (s : ComposerState) (url : String) (resp : Option LinkMeta) :
    ComposerState :=
  match resp with
  | some meta =>
    if meta.image ≠ "" then
      { s with thumbnailTitle := meta.title, thumbnailProvider := meta.link,
               thumbnailDesc := displayedDescription meta.description,
               thumbnailImg := meta.image, thumbnailImgPadded := false,
               thumbnailImgWidth := "130%", embedded_resource := url,
               thumbnailShown := true, previewShown := false }
    else
      { s with thumbnailTitle := meta.title, thumbnailProvider := meta.link,
               thumbnailDesc := displayedDescription meta.description,
               thumbnailImgPadded := true, thumbnailImgWidth := "8rem",
               thumbnailImg := "https://s.gitcoin.co/static/v2/images/team/gitcoinbot.c1e81ab42f13.png",
               embedded_resource := url, thumbnailShown := true, previewShown := false }
  | none => { s with thumbnailShown := false, thumbnailDesc := "", embedded_resource := "" }

/-- The `$.when(getUsers).then(...)` callback of the mention lookup: the
dropdown is emptied and rebuilt from the response (or a no-match message)
and is shown in either case. -/
def mentionResolve (s : ComposerState) (usernameFilter : String)
    (handles : List String) : ComposerState :=
  if handles ≠ [] then
    { s with dropdownHandles := handles, dropdownEmptyMsg := none, dropdownShown := true }
  else
    { s with dropdownHandles := [],
             dropdownEmptyMsg := some ("No username matching \x27" ++ usernameFilter ++ "\x27"),
             dropdownShown := true }

/-- The `$('#textarea').focusout(...)` handler: after a 100 ms grace delay
(modelled as the eventual state change) the dropdown is hidden. -/
def focusoutHandler (s : ComposerState) : ComposerState :=
  { s with dropdownShown := false }

/-- The resource shape appended on submit when `embedded_resource` is
truthy: GIF-provider match first, then YouTube match with an 11-character
id, otherwise the generic content shape.  Title, provider, description and
image are read from the displayed thumbnail panel. -/
def resourceFields (s : ComposerState) : List (String × String) :=
  if s.embedded_resource ≠ "" then
    if giphy_re_match s.embedded_resource then
      [("resource", "gif"), ("resourceProvider", "giphy"),
       ("resourceId", s.embedded_resource)]
    else
      match youtube_re_match s.embedded_resource with
      | some (_, vid) =>
        if vid.length = 11 then
          [("resource", "video"), ("resourceProvider", "youtube"), ("resourceId", vid),
           ("title", s.thumbnailTitle), ("description", s.thumbnailDesc),
           ("image", s.thumbnailImg)]
        else
          [("resource", "content"), ("resourceProvider", s.thumbnailProvider),
           ("resourceId", s.embedded_resource), ("title", s.thumbnailTitle),
           ("description", s.thumbnailDesc), ("image", s.thumbnailImg)]
      | none =>
        [("resource", "content"), ("resourceProvider", s.thumbnailProvider),
         ("resourceId", s.embedded_resource), ("title", s.thumbnailTitle),
         ("description", s.thumbnailDesc), ("image", s.thumbnailImg)]
  else []

/-- The poll option fields appended on submit.  The source loop runs
`i = 0 .. 4`, but the poll markup only defines inputs `option1` .. `option4`,
so `option0` never yields a value; non-empty values are appended. -/
def pollFields (s : ComposerState) : List (String × String) :=
  match s.pollContainer with
  | none => []
  | some p =>
    (if p.option1 ≠ "" then [("option1", p.option1)] else [])
    ++ (if p.option2 ≠ "" then [("option2", p.option2)] else [])
    ++ (if p.option3 ≠ "" then [("option3", p.option3)] else [])
    ++ (if p.option4 ≠ "" then [("option4", p.option4)] else [])

/-- The multipart payload built by `submitStatusUpdate`, in append order:
ask, data (the trimmed message), what, tab, the video-decoration fields
when its container is present, the CSRF token, the resource shape, and the
poll options. -/
def buildFormData (s : ComposerState) : List (String × String) :=
  [("ask", s.askVal), ("data", jsTrim s.textboxVal), ("what", s.whatVal),
   ("tab", s.tabParam)]
  ++ (match s.videoContainer with
      | some gfx => [("has_video", "1"), ("video_gfx", gfx)]
      | none => [])
  ++ [("csrfmiddlewaretoken", s.csrfToken)]
  ++ resourceFields s
  ++ pollFields s

/-- `submitStatusUpdate`, including the response handling of the issued
POST.  A disabled post button aborts before any effect.  Otherwise the
payload is captured, the textbox and draft are optimistically cleared, the
poll and video containers are removed, and the POST is issued.  On HTTP 200
the preview state and `embedded_resource` are cleared, a success notice is
shown, and either the feed is reset or the long poller resumed; on any
other status or a network error `fail_callback` restores the textbox and
the draft to the pre-submit trimmed message and shows an error notice.
Exactly one request is issued; no retry. -/
def submitStatusUpdate (s : ComposerState) (resp : SubmitResponse) :
    ComposerState × List FetchRequest × List UiEffect :=
  if s.btnPostDisabled then (s, [], [])
  else
    let the_message := jsTrim s.textboxVal
    let formData := buildFormData s
    let s1 := { s with textboxVal := "", draft := some "",
                       pollContainer := none, videoContainer := none }
    if resp = SubmitResponse.status 200 then
      let s2 := { s1 with thumbnailShown := false, thumbnailTitle := "",
                          thumbnailProvider := "", thumbnailDesc := "",
                          thumbnailImg := "", previewShown := false, previewImg := "",
                          embedded_resource := "" }
      if s.hasActivityFeed then
        ({ s2 with feedPageAttr := 0, feedHtml := "", textboxVal := "" },
         [FetchRequest.postActivity formData],
         [UiEffect.alert "Status has been saved." "success"])
      else
        (s2, [FetchRequest.postActivity formData],
         [UiEffect.alert "Status has been saved." "success", UiEffect.runLongPoller false])
    else
      ({ s1 with textboxVal := the_message, draft := some the_message },
       [FetchRequest.postActivity formData],
       [UiEffect.alert "An error occurred. Please try again." "error"])

/-- A keyboard-class event on the textarea (`focus change paste keydown
keyup blur`); the handler reads the textarea value from the DOM. -/
structure KeyEvent where
  keyCode : Nat
  shiftKey : Bool
  focused : Bool
deriving DecidableEq, Repr

/-- The length-enforcement handler on the textarea: updates the character
counter, writes the draft cache, and sets the red class and the post
button's disabled state from the trimmed length (disabled unless
`4 < len ≤ maxLen`).  The returned flag reports whether the Enter-key
branch invokes `submitStatusUpdate`. -/
def keystrokeUpdate (s : ComposerState) (e : KeyEvent) : ComposerState × Bool :=
  let len := (jsTrim s.textboxVal).length
  let s0 := { s with charCountHidden := len < s.maxLen,
                     charCountText := toString len ++ "/" ++ toString s.maxLen,
                     draft := some s.textboxVal }
  if s.maxLen < len then
    ({ s0 with textareaRed := true, btnPostDisabled := true }, false)
  else if 4 < len then
    let s1 := { s0 with btnPostDisabled := false, textareaRed := false }
    if e.focused ∧ ¬ e.shiftKey ∧ e.keyCode = 13 then (s1, true) else (s1, false)
  else ({ s0 with btnPostDisabled := true }, false)

/-- The full keyboard-class handler: the length enforcement, then the
Enter-key submission when triggered.  There is no login check on this
path. -/
def keystrokeHandler (s : ComposerState) (e : KeyEvent) (resp : SubmitResponse) :
    ComposerState × List FetchRequest × List UiEffect :=
  let r := keystrokeUpdate s e
  if r.2 then submitStatusUpdate r.1 resp else (r.1, [], [])

/-- A click on `#btn_post`.  A disabled button element dispatches no click
events at all.  On an enabled button two listeners fire: the native
listener (registered first) invokes `submitStatusUpdate`, and the jQuery
handler then shows the login prompt when `document.contxt.github_handle`
is falsy — its `e.preventDefault()` cannot cancel the sibling listener, so
the submission still goes out. -/
def btnPostClick (github_handle : String) (s : ComposerState)
    (resp : SubmitResponse) : ComposerState × List FetchRequest × List UiEffect :=
  if s.btnPostDisabled then (s, [], [])
  else
    let r := submitStatusUpdate s resp
    (r.1, r.2.1,
     r.2.2 ++ (if github_handle = "" then [UiEffect.alert "Please login first." "error"] else []))

/-- Following the specification's words: the last whitespace-delimited
token of the text (the source instead splits on the space character only). -/
def specLastWhitespaceToken (v : String) : String :=
  String.mk ((splitOnPred (fun c => c.isWhitespace) v.data).getLastD [])

/-- A baseline document state used by concrete witnesses. -/
def baseState : ComposerState :=
  { embedded_resource := "", textboxVal := "", draft := none,
    thumbnailTitle := "", thumbnailProvider := "", thumbnailDesc := "",
    thumbnailImg := "", thumbnailImgPadded := false, thumbnailImgWidth := "",
    thumbnailShown := false, previewImg := "", previewShown := false,
    dropdownShown := false, dropdownHandles := [], dropdownEmptyMsg := none,
    btnPostDisabled := true, textareaRed := false, charCountText := "",
    charCountHidden := true, maxLen := 280, askVal := "", whatVal := "",
    tabParam := "", csrfToken := "", pollContainer := none, videoContainer := none,
    hasActivityFeed := true, feedPageAttr := 1, feedHtml := "" }

/-- A string matching the GIF-provider pattern is in particular non-empty. -/
theorem giphy_ne_empty {x : String} (h : giphy_re_match x = true) : x ≠ "" := by
  intro he
  rw [he] at h
  exact absurd h (by decide)

/-- Claim C2: once `embedded_resource` holds a value matching the
GIF-provider pattern, every input event on the textarea returns
immediately, leaving the whole state — in particular `embedded_resource`
and the classification-derived fields — unchanged, with no YouTube or link
detection and no metadata fetch of any kind, until `embedded_resource` is
explicitly cleared; a successful submit resets it to the empty string. -/
theorem gif_lock_input_unchanged (s : ComposerState) (value ty : String)
    (h : giphy_re_match s.embedded_resource = true) :
    inputHandler s value ty = (s, [])
    ∧ (s.btnPostDisabled = false →
        (submitStatusUpdate s (SubmitResponse.status 200)).1.embedded_resource = "") := by
  constructor
  · simp [inputHandler, h]
  · intro hd
    simp [submitStatusUpdate, hd]
    split <;> rfl

/-- Concrete GIF-locked state, obtained via `selectGif`. -/
def csC2 : ComposerState :=
  selectGif { baseState with btnPostDisabled := false }
    "https://media0.giphy.com/media/abc123/giphy.webp"

/-- Witness for `gif_lock_input_unchanged` at a concrete GIF-locked
state and a concrete input event that would otherwise classify as a
YouTube link. -/
theorem gif_lock_input_unchanged_witness :
    inputHandler csC2 "check this https://youtu.be/dQw4w9WgXcQ" "insertText" = (csC2, [])
    ∧ (csC2.btnPostDisabled = false →
        (submitStatusUpdate csC2 (SubmitResponse.status 200)).1.embedded_resource = "") :=
  gif_lock_input_unchanged csC2 "check this https://youtu.be/dQw4w9WgXcQ" "insertText"
    (by decide)

/-- Claim C3: every submission attempt answered with a non-200 status or a
network error restores the textbox to the pre-submit trimmed message,
restores the draft cache entry to that same value, shows an error notice,
and issues no further request (the one POST is all there is). -/
theorem submit_failure_restores_draft (s : ComposerState) (resp : SubmitResponse)
    (h1 : s.btnPostDisabled = false) (h2 : resp ≠ SubmitResponse.status 200) :
    (submitStatusUpdate s resp).1.textboxVal = jsTrim s.textboxVal
    ∧ (submitStatusUpdate s resp).1.draft = some (jsTrim s.textboxVal)
    ∧ (submitStatusUpdate s resp).2.2
        = [UiEffect.alert "An error occurred. Please try again." "error"]
    ∧ (submitStatusUpdate s resp).2.1 = [FetchRequest.postActivity (buildFormData s)] := by
  simp [submitStatusUpdate, h1, h2]

/-- Concrete enabled state with untrimmed message text. -/
def csC3 : ComposerState :=
  { baseState with textboxVal := "  hello there  ", btnPostDisabled := false }

/-- Witness for `submit_failure_restores_draft` on a network error. -/
theorem submit_failure_restores_draft_witness :
    (submitStatusUpdate csC3 SubmitResponse.networkError).1.textboxVal = jsTrim csC3.textboxVal
    ∧ (submitStatusUpdate csC3 SubmitResponse.networkError).1.draft
        = some (jsTrim csC3.textboxVal)
    ∧ (submitStatusUpdate csC3 SubmitResponse.networkError).2.2
        = [UiEffect.alert "An error occurred. Please try again." "error"]
    ∧ (submitStatusUpdate csC3 SubmitResponse.networkError).2.1
        = [FetchRequest.postActivity (buildFormData csC3)] :=
  submit_failure_restores_draft csC3 SubmitResponse.networkError rfl (by decide)

/-- Claim C10: on a failed submission only the textbox and the draft cache
are restored; `embedded_resource` and the preview/thumbnail panel keep
their pre-submit values (they are cleared only on HTTP 200), while the
poll and video-decoration containers were removed before the request and
are not recreated. -/
theorem submit_failure_frame_effect (s : ComposerState) (resp : SubmitResponse)
    (h1 : s.btnPostDisabled = false) (h2 : resp ≠ SubmitResponse.status 200) :
    (submitStatusUpdate s resp).1.embedded_resource = s.embedded_resource
    ∧ (submitStatusUpdate s resp).1.thumbnailTitle = s.thumbnailTitle
    ∧ (submitStatusUpdate s resp).1.thumbnailProvider = s.thumbnailProvider
    ∧ (submitStatusUpdate s resp).1.thumbnailDesc = s.thumbnailDesc
    ∧ (submitStatusUpdate s resp).1.thumbnailImg = s.thumbnailImg
    ∧ (submitStatusUpdate s resp).1.thumbnailShown = s.thumbnailShown
    ∧ (submitStatusUpdate s resp).1.previewImg = s.previewImg
    ∧ (submitStatusUpdate s resp).1.previewShown = s.previewShown
    ∧ (submitStatusUpdate s resp).1.pollContainer = none
    ∧ (submitStatusUpdate s resp).1.videoContainer = none
    ∧ (submitStatusUpdate s resp).1.textboxVal = jsTrim s.textboxVal
    ∧ (submitStatusUpdate s resp).1.draft = some (jsTrim s.textboxVal)
    ∧ (submitStatusUpdate s (SubmitResponse.status 200)).1.embedded_resource = ""
    ∧ (submitStatusUpdate s (SubmitResponse.status 200)).1.thumbnailTitle = "" := by
  simp [submitStatusUpdate, h1, h2]
  constructor <;> split <;> rfl

/-- Concrete state with a pending link embed, poll options and a
video decoration. -/
def csC10 : ComposerState :=
  { baseState with textboxVal := " keep me ", btnPostDisabled := false,
                   embedded_resource := "https://ab.cd", thumbnailTitle := "A title",
                   thumbnailShown := true,
                   pollContainer := some ⟨"yes", "no", "", ""⟩,
                   videoContainer := some "video1.gif" }

/-- Witness for `submit_failure_frame_effect` at a concrete failed
submission. -/
theorem submit_failure_frame_effect_witness :
    (submitStatusUpdate csC10 (SubmitResponse.status 500)).1.embedded_resource
        = csC10.embedded_resource
    ∧ (submitStatusUpdate csC10 (SubmitResponse.status 500)).1.thumbnailTitle
        = csC10.thumbnailTitle
    ∧ (submitStatusUpdate csC10 (SubmitResponse.status 500)).1.thumbnailProvider
        = csC10.thumbnailProvider
    ∧ (submitStatusUpdate csC10 (SubmitResponse.status 500)).1.thumbnailDesc
        = csC10.thumbnailDesc
    ∧ (submitStatusUpdate csC10 (SubmitResponse.status 500)).1.thumbnailImg
        = csC10.thumbnailImg
    ∧ (submitStatusUpdate csC10 (SubmitResponse.status 500)).1.thumbnailShown
        = csC10.thumbnailShown
    ∧ (submitStatusUpdate csC10 (SubmitResponse.status 500)).1.previewImg
        = csC10.previewImg
    ∧ (submitStatusUpdate csC10 (SubmitResponse.status 500)).1.previewShown
        = csC10.previewShown
    ∧ (submitStatusUpdate csC10 (SubmitResponse.status 500)).1.pollContainer = none
    ∧ (submitStatusUpdate csC10 (SubmitResponse.status 500)).1.videoContainer = none
    ∧ (submitStatusUpdate csC10 (SubmitResponse.status 500)).1.textboxVal
        = jsTrim csC10.textboxVal
    ∧ (submitStatusUpdate csC10 (SubmitResponse.status 500)).1.draft
        = some (jsTrim csC10.textboxVal)
    ∧ (submitStatusUpdate csC10 (SubmitResponse.status 200)).1.embedded_resource = ""
    ∧ (submitStatusUpdate csC10 (SubmitResponse.status 200)).1.thumbnailTitle = "" :=
  submit_failure_frame_effect csC10 (SubmitResponse.status 500) rfl (by decide)

/-- Claim C8: the keyboard-class handler disables the post button exactly
when the trimmed text is shorter than 5 characters or longer than the
configured maximum, and invoking `submitStatusUpdate` on a state with the
button disabled is a complete no-op: no network call, the draft cache (and
everything else) unchanged. -/
theorem disabled_guard_no_network (s : ComposerState) (e : KeyEvent)
    (resp : SubmitResponse)
    (h : (jsTrim s.textboxVal).length < 5 ∨ s.maxLen < (jsTrim s.textboxVal).length) :
    (keystrokeUpdate s e).1.btnPostDisabled = true
    ∧ (s.btnPostDisabled = true → submitStatusUpdate s resp = (s, [], [])) := by
  constructor
  · rcases h with h | h
    · by_cases hm : s.maxLen < (jsTrim s.textboxVal).length
      · simp [keystrokeUpdate, hm]
      · have h4 : ¬ 4 < (jsTrim s.textboxVal).length := by omega
        simp [keystrokeUpdate, hm, h4]
    · simp [keystrokeUpdate, h]
  · intro hd
    simp [submitStatusUpdate, hd]

/-- Concrete state with a 3-character message, below the 5-character
floor. -/
def csC8 : ComposerState := { baseState with textboxVal := "abc", btnPostDisabled := true }

/-- Witness for `disabled_guard_no_network` on a 3-character message. -/
theorem disabled_guard_no_network_witness :
    (keystrokeUpdate csC8 ⟨13, false, true⟩).1.btnPostDisabled = true
    ∧ (csC8.btnPostDisabled = true →
        submitStatusUpdate csC8 SubmitResponse.networkError = (csC8, [], [])) :=
  disabled_guard_no_network csC8 ⟨13, false, true⟩ SubmitResponse.networkError
    (Or.inl (by decide))

/-- Concrete logged-out scenario: empty `github_handle`, enabled post
button, valid message text. -/
def csC4 : ComposerState :=
  { baseState with textboxVal := "hello world", btnPostDisabled := false }

/-- Claim C4 (evidence for the code bug): with no logged-in identity the
login prompt is shown, yet a click on the enabled post button still issues
the submission POST — the jQuery login-gate handler cannot cancel the
separately registered native click listener that calls
`submitStatusUpdate` (and the Enter-key path has no login check at all). -/
theorem logged_out_click_still_submits :
    (btnPostClick "" csC4 (SubmitResponse.status 200)).2.1
      = [FetchRequest.postActivity (buildFormData csC4)]
    ∧ UiEffect.alert "Please login first." "error"
        ∈ (btnPostClick "" csC4 (SubmitResponse.status 200)).2.2 := by
  decide

/-- Claim C9: a link-metadata description longer than 200 characters is
displayed as its first 200 characters followed by the 3-character marker
`...`; a description of at most 200 characters is displayed untruncated. -/
theorem description_truncation_200 (s : ComposerState) (url : String) (meta : LinkMeta) :
    (linkResolve s url (some meta)).thumbnailDesc
      = if 200 < meta.description.length then meta.description.take 200 ++ "..."
        else meta.description := by
  have h : (linkResolve s url (some meta)).thumbnailDesc
      = displayedDescription meta.description := by
    simp only [linkResolve]
    split <;> rfl
  rw [h]
  unfold displayedDescription
  by_cases h2 : 200 < meta.description.length
  · have hne : meta.description ≠ "" := by
      intro he
      rw [he] at h2
      exact absurd h2 (by decide)
    rw [if_pos ⟨hne, h2⟩, if_pos h2]
  · rw [if_neg (fun hc => h2 hc.2), if_neg h2]

/-- The payload keys reserved for the resource shape. -/
def isResourceField (kv : String × String) : Bool :=
  kv.1 == "resource" || kv.1 == "resourceProvider" || kv.1 == "resourceId" ||
  kv.1 == "title" || kv.1 == "description" || kv.1 == "image"

/-- The poll option fields never use a resource-shape key. -/
theorem pollFields_no_resource (s : ComposerState) :
    (pollFields s).filter isResourceField = [] := by
  unfold pollFields
  cases s.pollContainer with
  | none => rfl
  | some p =>
    simp only [List.filter_append]
    split_ifs <;> rfl

/-- Every field emitted by `resourceFields` uses a resource-shape key. -/
theorem resourceFields_filter_self (s : ComposerState) :
    (resourceFields s).filter isResourceField = resourceFields s := by
  unfold resourceFields
  repeat' split
  all_goals rfl

/-- The resource-shape keys of the full payload come from `resourceFields`
alone: no other append contributes one. -/
theorem buildFormData_filter_resource (s : ComposerState) :
    (buildFormData s).filter isResourceField = resourceFields s := by
  unfold buildFormData
  simp only [List.filter_append]
  have h2 : (match s.videoContainer with
      | some gfx => [("has_video", "1"), ("video_gfx", gfx)]
      | none => ([] : List (String × String))).filter isResourceField = [] := by
    cases s.videoContainer <;> rfl
  have h1 : List.filter isResourceField
      [("ask", s.askVal), ("data", jsTrim s.textboxVal), ("what", s.whatVal),
       ("tab", s.tabParam)] = [] := rfl
  have h3 : List.filter isResourceField [("csrfmiddlewaretoken", s.csrfToken)] = [] := rfl
  rw [h2, pollFields_no_resource, resourceFields_filter_self, h1, h3]
  simp

/-- Claim C1: the single POST issued by an enabled submit carries the
payload built by `buildFormData`, whose resource shape is exactly one of
gif, video, content, or absent — never more than one simultaneously.  The
shape is gif when `embedded_resource` matches the GIF-provider pattern,
video when it instead matches the YouTube pattern with an 11-character id
(with title, description and image read from the preview panel), content
otherwise when `embedded_resource` is non-empty, and no resource field is
attached when it is empty. -/
theorem submit_resource_shape_exclusive (s : ComposerState) (resp : SubmitResponse)
    (h : s.btnPostDisabled = false) :
    (submitStatusUpdate s resp).2.1 = [FetchRequest.postActivity (buildFormData s)]
    ∧ (buildFormData s).filter isResourceField = resourceFields s
    ∧ ((resourceFields s).filter (fun kv => kv.1 == "resource")).length ≤ 1
    ∧ (s.embedded_resource = "" → resourceFields s = [])
    ∧ (giphy_re_match s.embedded_resource = true →
        resourceFields s = [("resource", "gif"), ("resourceProvider", "giphy"),
          ("resourceId", s.embedded_resource)])
    ∧ (∀ full vid, s.embedded_resource ≠ "" →
        giphy_re_match s.embedded_resource = false →
        youtube_re_match s.embedded_resource = some (full, vid) → vid.length = 11 →
        resourceFields s = [("resource", "video"), ("resourceProvider", "youtube"),
          ("resourceId", vid), ("title", s.thumbnailTitle),
          ("description", s.thumbnailDesc), ("image", s.thumbnailImg)])
    ∧ (s.embedded_resource ≠ "" → giphy_re_match s.embedded_resource = false →
        (∀ full vid, youtube_re_match s.embedded_resource = some (full, vid) →
          ¬ vid.length = 11) →
        resourceFields s = [("resource", "content"),
          ("resourceProvider", s.thumbnailProvider),
          ("resourceId", s.embedded_resource), ("title", s.thumbnailTitle),
          ("description", s.thumbnailDesc), ("image", s.thumbnailImg)]) := by
  refine ⟨?_, buildFormData_filter_resource s, ?_, ?_, ?_, ?_, ?_⟩
  · simp [submitStatusUpdate, h]
    split
    · split <;> rfl
    · rfl
  · unfold resourceFields
    repeat' split
    all_goals first | exact Nat.le_refl 1 | exact Nat.zero_le 1
  · intro he
    simp [resourceFields, he]
  · intro hg
    have hne := giphy_ne_empty hg
    simp [resourceFields, hne, hg]
  · intro full vid hne hg hyt h11
    simp [resourceFields, hne, hg, hyt, h11]
  · intro hne hg hno
    cases hyt : youtube_re_match s.embedded_resource with
    | none => simp [resourceFields, hne, hg, hyt]
    | some p =>
      obtain ⟨f, v⟩ := p
      have hv := hno f v hyt
      simp [resourceFields, hne, hg, hyt, hv]

/-- Concrete enabled state with a GIF embed. -/
def csC1 : ComposerState :=
  { baseState with embedded_resource := "https://media0.giphy.com/media/abc123/giphy.webp",
                   btnPostDisabled := false, textboxVal := "look at this gif" }

/-- Witness for `submit_resource_shape_exclusive` at a GIF-locked enabled
state. -/
theorem submit_resource_shape_exclusive_witness :
    (submitStatusUpdate csC1 (SubmitResponse.status 200)).2.1
      = [FetchRequest.postActivity (buildFormData csC1)]
    ∧ (buildFormData csC1).filter isResourceField = resourceFields csC1
    ∧ ((resourceFields csC1).filter (fun kv => kv.1 == "resource")).length ≤ 1
    ∧ (csC1.embedded_resource = "" → resourceFields csC1 = [])
    ∧ (giphy_re_match csC1.embedded_resource = true →
        resourceFields csC1 = [("resource", "gif"), ("resourceProvider", "giphy"),
          ("resourceId", csC1.embedded_resource)])
    ∧ (∀ full vid, csC1.embedded_resource ≠ "" →
        giphy_re_match csC1.embedded_resource = false →
        youtube_re_match csC1.embedded_resource = some (full, vid) → vid.length = 11 →
        resourceFields csC1 = [("resource", "video"), ("resourceProvider", "youtube"),
          ("resourceId", vid), ("title", csC1.thumbnailTitle),
          ("description", csC1.thumbnailDesc), ("image", csC1.thumbnailImg)])
    ∧ (csC1.embedded_resource ≠ "" → giphy_re_match csC1.embedded_resource = false →
        (∀ full vid, youtube_re_match csC1.embedded_resource = some (full, vid) →
          ¬ vid.length = 11) →
        resourceFields csC1 = [("resource", "content"),
          ("resourceProvider", csC1.thumbnailProvider),
          ("resourceId", csC1.embedded_resource), ("title", csC1.thumbnailTitle),
          ("description", csC1.thumbnailDesc), ("image", csC1.thumbnailImg)]) :=
  submit_resource_shape_exclusive csC1 (SubmitResponse.status 200) rfl

/-- The mention inspection only ever issues user-search lookups: no
video-metadata request among them. -/
theorem videoMeta_not_mem_mention (value i : String) :
    FetchRequest.videoMeta i ∉ mentionRequests value := by
  simp only [mentionRequests]
  split_ifs <;> simp

/-- The mention inspection only ever issues user-search lookups: no
link-metadata request among them. -/
theorem linkMeta_not_mem_mention (value u : String) :
    FetchRequest.linkMeta u ∉ mentionRequests value := by
  simp only [mentionRequests]
  split_ifs <;> simp

/-- The classification cascade never issues a user-search lookup. -/
theorem userSearch_not_mem_classify (s : ComposerState) (value ty q : String) :
    FetchRequest.userSearch q ∉ (classifyUpdate s value ty).2 := by
  unfold classifyUpdate siteUpdate noneUpdate
  repeat' split
  all_goals simp

/-- Concrete state whose `embedded_resource` equals the URL the text
matches. -/
def csC5x : ComposerState := { baseState with embedded_resource := "https://ab.cd" }

/-- Claim C5 counterexample: the newly detected generic-URL match equals
the current `embedded_resource`, yet a link-metadata fetch is issued — the
string-equality suppression exists only on the YouTube arm. -/
theorem link_refetch_when_equal_counterexample :
    url_re_match "https://ab.cd" = some "https://ab.cd"
    ∧ csC5x.embedded_resource = "https://ab.cd"
    ∧ giphy_re_match csC5x.embedded_resource = false
    ∧ (inputHandler csC5x "https://ab.cd" "insertText").2
        = [FetchRequest.linkMeta "https://ab.cd"] := by
  decide

/-- Claim C5 as amended: the string-equality suppression holds for YouTube
matches — when the raw matched string equals `embedded_resource`, no
video- or link-metadata fetch is issued (only mention lookups remain) —
whereas a generic-URL match always triggers a link-metadata fetch on a
qualifying input event, even when the matched string equals
`embedded_resource`. -/
theorem fetch_idempotence_youtube_only (s : ComposerState) (value ty full vid : String)
    (hg : giphy_re_match s.embedded_resource = false)
    (hy : youtube_re_match value = some (full, vid)) (h11 : vid.length = 11)
    (hb : ty ≠ "insertLineBreak") (he : s.embedded_resource = full) :
    (inputHandler s value ty).2 = mentionRequests value
    ∧ (∀ i, FetchRequest.videoMeta i ∉ mentionRequests value)
    ∧ (∀ u, FetchRequest.linkMeta u ∉ mentionRequests value)
    ∧ (∀ s2 v2 ty2 url, giphy_re_match s2.embedded_resource = false →
        youtube_re_match v2 = none → url_re_match v2 = some url →
        ty2 ≠ "insertLineBreak" →
        FetchRequest.linkMeta url ∈ (inputHandler s2 v2 ty2).2) := by
  refine ⟨?_, fun i => videoMeta_not_mem_mention value i,
    fun u => linkMeta_not_mem_mention value u, ?_⟩
  · rw [he] at hg
    simp [inputHandler, hg, classifyUpdate, hy, h11, hb, he]
  · intro s2 v2 ty2 url hg2 hy2 hu2 hb2
    simp [inputHandler, hg2, classifyUpdate, hy2, siteUpdate, hu2, hb2]

/-- Concrete state for the witness: the text is exactly the embedded
YouTube URL. -/
def csC5w : ComposerState :=
  { baseState with embedded_resource := "https://youtu.be/dQw4w9WgXcQ" }

/-- Witness for `fetch_idempotence_youtube_only` at a concrete
re-detection of the already-embedded YouTube URL. -/
theorem fetch_idempotence_youtube_only_witness :
    (inputHandler csC5w "https://youtu.be/dQw4w9WgXcQ" "insertText").2
      = mentionRequests "https://youtu.be/dQw4w9WgXcQ"
    ∧ (∀ i, FetchRequest.videoMeta i ∉ mentionRequests "https://youtu.be/dQw4w9WgXcQ")
    ∧ (∀ u, FetchRequest.linkMeta u ∉ mentionRequests "https://youtu.be/dQw4w9WgXcQ")
    ∧ (∀ s2 v2 ty2 url, giphy_re_match s2.embedded_resource = false →
        youtube_re_match v2 = none → url_re_match v2 = some url →
        ty2 ≠ "insertLineBreak" →
        FetchRequest.linkMeta url ∈ (inputHandler s2 v2 ty2).2) :=
  fetch_idempotence_youtube_only csC5w "https://youtu.be/dQw4w9WgXcQ" "insertText"
    "https://youtu.be/dQw4w9WgXcQ" "dQw4w9WgXcQ" (by decide) (by decide) (by decide)
    (by decide) (by decide)

/-- Claim C6 counterexample: with the text `"hi\n@bob"` the last
whitespace-delimited token is `"@bob"`, which starts with `@` and has more
than 2 characters after it, so the claim requires a user-search lookup —
but the source splits on the space character only, sees the whole text as
the last word, issues no lookup, and hides the dropdown. -/
theorem mention_space_split_counterexample :
    specLastWhitespaceToken "hi\n@bob" = "@bob"
    ∧ strStartsWith "@bob" "@" = true
    ∧ 2 < (strSlice1 "@bob").length
    ∧ giphy_re_match baseState.embedded_resource = false
    ∧ (inputHandler baseState "hi\n@bob" "insertText").2 = []
    ∧ (inputHandler baseState "hi\n@bob" "insertText").1.dropdownShown = false := by
  decide

/-- Claim C6 as amended: for input events without a GIF lock, the mention
trigger is computed from the last space-delimited token (`split(' ')`,
not general whitespace): when it starts with `@` and more than 2
characters follow, a user-search lookup is issued; when it does not start
with `@` the dropdown is hidden and no lookup is issued; the lookup
callback rebuilds the suggestion list from the response and shows the
dropdown; losing focus hides the dropdown (after a short grace delay). -/
theorem mention_trigger_space_token (s : ComposerState) (value ty : String)
    (hg : giphy_re_match s.embedded_resource = false) :
    (strStartsWith (lastWordOf value) "@" = true →
      2 < (strSlice1 (lastWordOf value)).length →
      FetchRequest.userSearch (strSlice1 (lastWordOf value)) ∈ (inputHandler s value ty).2)
    ∧ (strStartsWith (lastWordOf value) "@" = false →
        (inputHandler s value ty).1.dropdownShown = false
        ∧ ∀ q, FetchRequest.userSearch q ∉ (inputHandler s value ty).2)
    ∧ (∀ f hs, hs ≠ [] → (mentionResolve s f hs).dropdownHandles = hs
        ∧ (mentionResolve s f hs).dropdownShown = true)
    ∧ (focusoutHandler s).dropdownShown = false := by
  have h2 : (inputHandler s value ty).2
      = (classifyUpdate s value ty).2 ++ mentionRequests value := by
    simp [inputHandler, hg]
  have h1 : (inputHandler s value ty).1
      = mentionUpdate (classifyUpdate s value ty).1 value := by
    simp [inputHandler, hg]
  refine ⟨?_, ?_, ?_, rfl⟩
  · intro hat hlen
    rw [h2]
    apply List.mem_append_right
    simp [mentionRequests, hat, hlen]
  · intro hat
    constructor
    · rw [h1]
      simp [mentionUpdate, hat]
    · intro q
      rw [h2]
      intro hm
      rcases List.mem_append.1 hm with hm | hm
      · exact userSearch_not_mem_classify s value ty q hm
      · simp [mentionRequests, hat] at hm
  · intro f hs hne
    unfold mentionResolve
    rw [if_pos hne]
    exact ⟨rfl, rfl⟩

/-- Witness for `mention_trigger_space_token` at a concrete mention
trigger. -/
theorem mention_trigger_space_token_witness :
    (strStartsWith (lastWordOf "hello @gitcoinbot") "@" = true →
      2 < (strSlice1 (lastWordOf "hello @gitcoinbot")).length →
      FetchRequest.userSearch (strSlice1 (lastWordOf "hello @gitcoinbot"))
        ∈ (inputHandler baseState "hello @gitcoinbot" "insertText").2)
    ∧ (strStartsWith (lastWordOf "hello @gitcoinbot") "@" = false →
        (inputHandler baseState "hello @gitcoinbot" "insertText").1.dropdownShown = false
        ∧ ∀ q, FetchRequest.userSearch q
            ∉ (inputHandler baseState "hello @gitcoinbot" "insertText").2)
    ∧ (∀ f hs, hs ≠ [] → (mentionResolve baseState f hs).dropdownHandles = hs
        ∧ (mentionResolve baseState f hs).dropdownShown = true)
    ∧ (focusoutHandler baseState).dropdownShown = false :=
  mention_trigger_space_token baseState "hello @gitcoinbot" "insertText" (by decide)

/-- Concrete state whose `embedded_resource` already equals the raw
YouTube match of the typed text. -/
def csC7 : ComposerState :=
  { baseState with embedded_resource := "https://youtu.be/dQw4w9WgXcQ" }

/-- Claim C7 counterexample: every hypothesis of the claim holds — the
text matches `youtube_re` with the 11-character id `dQw4w9WgXcQ`, there is
no GIF lock, the edit is not a line break — yet no video-metadata request
is issued, because `embedded_resource` already equals the raw matched
string. -/
theorem youtube_equal_skips_fetch_counterexample :
    youtube_re_match "check this https://youtu.be/dQw4w9WgXcQ"
      = some ("https://youtu.be/dQw4w9WgXcQ", "dQw4w9WgXcQ")
    ∧ giphy_re_match csC7.embedded_resource = false
    ∧ csC7.embedded_resource = "https://youtu.be/dQw4w9WgXcQ"
    ∧ (inputHandler csC7 "check this https://youtu.be/dQw4w9WgXcQ" "insertText").2
        = [] := by
  decide

/-- Claim C7 as amended: for any text matching the YouTube pattern with an
11-character id, without a GIF lock and on a non-line-break edit,
classification takes the YouTube arm and not the link arm: the only
classification fetch possibly issued is the video-metadata request for the
captured id, issued exactly when `embedded_resource` differs from the raw
matched string; and the resolver, on a non-empty result, sets the provider
label to `Youtube` and the thumbnail image to the id-derived URL. -/
theorem youtube_classify_resolve (s : ComposerState) (value ty full vid : String)
    (hg : giphy_re_match s.embedded_resource = false)
    (hy : youtube_re_match value = some (full, vid))
    (h11 : vid.length = 11)
    (hb : ty ≠ "insertLineBreak") :
    (inputHandler s value ty).2
      = (if s.embedded_resource = full then [] else [FetchRequest.videoMeta vid])
        ++ mentionRequests value
    ∧ (∀ u, FetchRequest.linkMeta u ∉ (inputHandler s value ty).2)
    ∧ (∀ t ts, (youtubeResolve s vid full (t :: ts)).thumbnailProvider = "Youtube"
        ∧ (youtubeResolve s vid full (t :: ts)).thumbnailImg
            = "https://img.youtube.com/vi/" ++ vid ++ "/default.jpg"
        ∧ (youtubeResolve s vid full (t :: ts)).thumbnailTitle = t
        ∧ (youtubeResolve s vid full (t :: ts)).embedded_resource = full) := by
  have hreq : (inputHandler s value ty).2
      = (if s.embedded_resource = full then [] else [FetchRequest.videoMeta vid])
        ++ mentionRequests value := by
    simp only [inputHandler, hg, Bool.false_eq_true, if_false]
    simp only [classifyUpdate, hy]
    rw [if_pos ⟨h11, hb⟩]
    by_cases hc : s.embedded_resource = full
    · rw [if_pos hc, if_pos hc]
    · rw [if_neg hc, if_neg hc]
  refine ⟨hreq, ?_, fun t ts => ⟨rfl, rfl, rfl, rfl⟩⟩
  intro u
  rw [hreq]
  intro hm
  rcases List.mem_append.1 hm with hm | hm
  · by_cases hc : s.embedded_resource = full
    · rw [if_pos hc] at hm
      exact absurd hm (List.not_mem_nil _)
    · rw [if_neg hc] at hm
      simp at hm
  · exact linkMeta_not_mem_mention value u hm

/-- Witness for `youtube_classify_resolve`: a fresh state and the
specification's end-to-end text. -/
theorem youtube_classify_resolve_witness :
    (inputHandler baseState "check this https://youtu.be/dQw4w9WgXcQ" "insertText").2
      = (if baseState.embedded_resource = "https://youtu.be/dQw4w9WgXcQ" then []
         else [FetchRequest.videoMeta "dQw4w9WgXcQ"])
        ++ mentionRequests "check this https://youtu.be/dQw4w9WgXcQ"
    ∧ (∀ u, FetchRequest.linkMeta u
        ∉ (inputHandler baseState "check this https://youtu.be/dQw4w9WgXcQ" "insertText").2)
    ∧ (∀ t ts,
        (youtubeResolve baseState "dQw4w9WgXcQ" "https://youtu.be/dQw4w9WgXcQ" (t :: ts)).thumbnailProvider = "Youtube"
        ∧ (youtubeResolve baseState "dQw4w9WgXcQ" "https://youtu.be/dQw4w9WgXcQ" (t :: ts)).thumbnailImg
            = "https://img.youtube.com/vi/" ++ "dQw4w9WgXcQ" ++ "/default.jpg"
        ∧ (youtubeResolve baseState "dQw4w9WgXcQ" "https://youtu.be/dQw4w9WgXcQ" (t :: ts)).thumbnailTitle = t
        ∧ (youtubeResolve baseState "dQw4w9WgXcQ" "https://youtu.be/dQw4w9WgXcQ" (t :: ts)).embedded_resource
            = "https://youtu.be/dQw4w9WgXcQ") :=
  youtube_classify_resolve baseState "check this https://youtu.be/dQw4w9WgXcQ"
    "insertText" "https://youtu.be/dQw4w9WgXcQ" "dQw4w9WgXcQ" (by decide) (by decide)
    (by decide) (by decide)
